import Mathlib

/-!
Shallow embedding of the GoMine server core (repository BobbyShrd/GoMine).

Sources embedded:
- src/src/gomine/worlds/Dimension.go      (Dimension, UpdateBlocks, TickDimension)
- src/unnamed/part_000                    (AddEntityPacket codec; Server: NewServer,
                                           Start, Tick, HandleRaw, HandleDisconnect,
                                           GenerateQueryResult, GeneratePongData)
- src/unnamed/part_001                    (interfaces only)

Collaborator code that is not under src (the net.SessionManager operations, the
Binary Cursor packet primitives, the chunk index packing, the query manager) is
modelled from the specification, each such definition carrying a doc comment
that starts with: Modelled from the spec.
-/

/-! ## Blocks, packets and the Dimension chunk partition -/

/-- A block, as seen through interfaces.IBlock: GetId and GetData. -/
structure Block where
  id : Nat
  data : Nat
deriving DecidableEq, Repr

/-- The UpdateBlock packet fields set by Dimension.UpdateBlocks
(src/src/gomine/worlds/Dimension.go lines 92 to 95): BlockId, BlockMetadata, Flags.
The Go code casts the int block id and data to uint32, hence the explicit
reduction mod 2 to the 32. -/
structure UpdateBlockPacket where
  blockId : Nat
  blockMetadata : Nat
  flags : Nat
deriving DecidableEq, Repr

def blockPacket (b : Block) : UpdateBlockPacket :=
  { blockId := b.id % 2 ^ 32, blockMetadata := b.data % 2 ^ 32, flags := 0 }

/-- The Dimension record (src/src/gomine/worlds/Dimension.go lines 15 to 22).
Modelled from the spec: GetChunkIndex and GetChunkCoordinates are not under src;
section 3 of the spec requires a bijective packing of the (x, z) chunk
coordinates with unpack (pack x z) = (x, z), so the two chunk maps are keyed
directly by the coordinate pair. Players carried in chunkPlayers are identified
by name. The chunks map itself is not needed by any claim and is omitted. -/
structure Dimension where
  name : String
  dimensionId : Nat
  chunkPlayers : List ((Int × Int) × List String)
  updatedBlocks : List ((Int × Int) × List Block)
deriving DecidableEq, Repr

/-- Dimension.GetChunkPlayers (Dimension.go lines 69 to 71): a missing map entry
reads as the empty list, as a missing key of a Go map reads as nil. -/
def Dimension.GetChunkPlayers (d : Dimension) (x z : Int) : List String :=
  (((d.chunkPlayers.find? (fun e => decide (e.1 = (x, z)))).map (fun e => e.2)).getD [])

/-- The loop of Dimension.UpdateBlocks (Dimension.go lines 87 to 98), kept
faithful to the source: the players variable is declared once outside the loop
and overwritten on every iteration, so after the loop it holds the players of
the last iterated chunk only, while the batch accumulates one packet per
recorded block of every chunk. -/
def Dimension.updateBlocksLoop (d : Dimension) : List String × List UpdateBlockPacket :=
  d.updatedBlocks.foldl
    (fun acc e => (d.GetChunkPlayers e.1.1 e.1.2, acc.2 ++ e.2.map blockPacket))
    ([], [])

/-- Dimension.UpdateBlocks (Dimension.go lines 83 to 103), delivery part: the
single accumulated batch is sent to each player left in the players variable.
The returned list pairs each recipient with the batch it receives. -/
def Dimension.UpdateBlocks (d : Dimension) : List (String × List UpdateBlockPacket) :=
  (d.updateBlocksLoop).1.map (fun p => (p, (d.updateBlocksLoop).2))

/-- The dimension state after Dimension.UpdateBlocks returns: the method writes
no field of the receiver; in particular it never clears updatedBlocks
(Dimension.go lines 83 to 103 contain no assignment to dimension.updatedBlocks). -/
def Dimension.updateBlocksPost (d : Dimension) : Dimension := d

/-- Dimension.TickDimension (Dimension.go lines 105 to 107): the body is empty. -/
def Dimension.TickDimension (d : Dimension) : Dimension := d

/-! ## Sessions, configuration, query data and the Server -/

/-- The fields of resources.GoMineConfig that the embedded code reads. -/
structure GoMineConfig where
  useEncryption : Bool
  allowQuery : Bool
  allowPluginQuery : Bool
  debugMode : Bool
  serverMotd : String
  serverName : String
  serverIp : String
  serverPort : Nat
  maximumPlayers : Nat
deriving DecidableEq, Repr

/-- A Minecraft session as the embedded Server code observes it: the bound
RakNet transport handle, the name keying it in the session manager, the display
name, and whether the player of the session has a dimension set
(session.GetPlayer().Dimension different from nil in part_000 line 409). -/
structure MinecraftSession where
  raknetHandle : Nat
  name : String
  displayName : String
  hasDimension : Bool
deriving DecidableEq, Repr

/-- Outward side effects of the embedded Server operations, newest last. -/
inductive ServerEvent
  | playerListRemoveSent (target : String) (entry : String)
  | despawned (name : String)
  | closed (name : String)
  | messageTo (target : String) (msg : String)
  | chatLogged (msg : String)
  | errorLogged (msg : String)
deriving DecidableEq, Repr

/-- The query.Result record built by Server.GenerateQueryResult
(part_000 lines 353 to 381). -/
structure QueryResult where
  motd : String
  listPlugins : Bool
  pluginNames : List String
  playerNames : List String
  gameMode : String
  version : String
  serverEngine : String
  worldName : String
  onlinePlayers : Nat
  maximumPlayers : Nat
  whitelist : String
  port : Nat
  address : String
deriving DecidableEq, Repr

/-- Latest game version, from the doc comment of GetMinecraftVersion
(part_000 lines 213 to 214). -/
def latestGameVersion : String := "v1.2.10.1"

/-- Latest network version, from the doc comment of GetMinecraftNetworkVersion
(part_000 lines 219 to 220). -/
def latestGameVersionNetwork : String := "1.2.10.1"

/-- Modelled from the spec: info.LatestProtocol is not under src; part_000
registers protocols 160, 200, 201 and 220, so the latest is 220. The concrete
value is immaterial to every claim. -/
def latestProtocol : Nat := 220

/-- Modelled from the spec: the RakLib manager ServerId is not under src; it is
an opaque numeric identifier, immaterial to every claim. -/
def raklibServerId : Nat := 0

/-- The Server state (part_000 lines 81 to 97), restricted to the fields the
embedded operations read or write. The query manager is external
(github.com/irmine/query); its cached result is modelled as unset (none) until
the core first supplies one through SetQueryResult, per section 4.6 of the
spec: the core recomputes and caches announce data only on the periodic
interval. dimensions stands for all dimensions of all levels of the level
manager. -/
structure Server where
  isRunning : Bool
  tick : Int
  privateKey : Option Nat
  token : Option Nat
  config : GoMineConfig
  sessions : List MinecraftSession
  plugins : List String
  queryResult : Option QueryResult
  pongData : String
  dimensions : List Dimension
  events : List ServerEvent
deriving DecidableEq, Repr

/-- Two to the 63, the magnitude bound of a Go int64. -/
def int64Bound : Int := 2 ^ 63

/-- Reduction of an integer into the two-complement int64 range, modelling the
Go int64 wraparound. -/
def wrap64 (x : Int) : Int := (x + int64Bound) % (2 ^ 64) - int64Bound

/-- Server.GenerateQueryResult (part_000 lines 353 to 381). -/
def Server.GenerateQueryResult (s : Server) : QueryResult :=
  { motd := s.config.serverMotd
    listPlugins := s.config.allowPluginQuery
    pluginNames := s.plugins
    playerNames := s.sessions.map (fun t => t.name)
    gameMode := "SMP"
    version := latestGameVersion
    serverEngine := "GoMine"
    worldName := "world"
    onlinePlayers := s.sessions.length
    maximumPlayers := s.config.maximumPlayers
    whitelist := "off"
    port := s.config.serverPort
    address := s.config.serverIp }

/-- Server.GeneratePongData (part_000 lines 423 to 425). -/
def Server.GeneratePongData (s : Server) : String :=
  "MCPE;" ++ s.config.serverMotd ++ ";" ++ toString latestProtocol ++ ";"
    ++ latestGameVersionNetwork ++ ";" ++ toString s.sessions.length ++ ";"
    ++ toString s.config.maximumPlayers ++ ";" ++ toString raklibServerId
    ++ ";GoMine;Creative;"

/-- The server value NewServer has built just before the encryption block
(part_000 lines 104 to 134). File logging, manager construction and protocol
registration carry no state any claim observes and are omitted. PongData is
initialised from GeneratePongData (line 121). -/
def baseServer (config : GoMineConfig) : Server :=
  let base : Server :=
    { isRunning := false
      tick := 0
      privateKey := none
      token := none
      config := config
      sessions := []
      plugins := []
      queryResult := none
      pongData := ""
      dimensions := []
      events := [] }
  { base with pongData := base.GeneratePongData }

/-- NewServer (part_000 lines 104 to 152). keygenResult stands for the outcome
of ecdsa.GenerateKey (none when it returned an error, in which case the Go
library returns a nil key); curveValid stands for the outcome of
curve.IsOnCurve on a generated key. With encryption on, the encryption block
(lines 135 to 149) behaves as follows. When key generation fails, the error is
logged (LogError, line 140) and then line 142 evaluates s.privateKey.X on the
nil key: a nil pointer dereference, so NewServer panics and no server is
constructed, modelled as none. When key generation succeeds but the curve
check fails, the failure is only logged (line 143) and construction proceeds
with the invalid key. With encryption off the block is skipped. -/
def NewServer (config : GoMineConfig) (keygenResult : Option Nat)
    (curveValid : Bool) : Option Server :=
  let base := baseServer config
  if config.useEncryption then
    match keygenResult with
    | none => none
    | some k =>
      some { base with
        privateKey := some k
        events := base.events
          ++ (if curveValid then [] else [ServerEvent.errorLogged "Invalid private key generated"])
        token := some 0 }
  else
    some base

/-- The default overworld dimension created by Server.Start
(part_000 lines 183 to 187). -/
def defaultOverworld : Dimension :=
  { name := "overworld", dimensionId := 0, chunkPlayers := [], updatedBlocks := [] }

/-- A startup error, part_000 line 101. -/
inductive StartError
  | alreadyStarted
deriving DecidableEq, Repr

/-- Server.Start (part_000 lines 177 to 198): returns AlreadyStarted and changes
nothing when the server already runs; otherwise installs the default level with
its overworld dimension, loads packs and plugins (no observed state), sets
isRunning to true and starts the transport. -/
def Server.Start (s : Server) : Server × Option StartError :=
  if s.isRunning then (s, some StartError.alreadyStarted)
  else ({ s with isRunning := true, dimensions := [defaultOverworld] }, none)

/-- Modelled from the spec: MinecraftSession.Tick is not under src; per section
4.6 it performs per-session maintenance (keep-alive bookkeeping, queued-message
flushing), none of which touches the server level fields any claim concerns,
so it is modelled as leaving the session record unchanged. -/
def sessionTick (t : MinecraftSession) : MinecraftSession := t

/-- Server.Tick (part_000 lines 429 to 446): a no-op unless running; when the
tick counter is a multiple of 20, recompute and cache the query result and the
pong data; tick every session; iterate the levels with an empty body (the
level.Tick() call is commented out at line 443, so no dimension work happens);
finally increment the tick counter with int64 wraparound. -/
def Server.Tick (s : Server) : Server :=
  if s.isRunning then
    let s1 :=
      if s.tick % 20 = 0 then
        { s with queryResult := some s.GenerateQueryResult,
                 pongData := s.GeneratePongData }
      else s
    let s2 := { s1 with sessions := s1.sessions.map sessionTick }
    { s2 with tick := wrap64 (s2.tick + 1) }
  else s

/-- Iterated Server.Tick. -/
def Server.tickN (s : Server) : Nat → Server
  | 0 => s
  | n + 1 => (s.Tick).tickN n

/-- Modelled from the spec: net.SessionManager.GetSessionByRakNetSession is not
under src; per section 4.4 it resolves a transport handle to the bound session,
absent when none is bound. -/
def getSessionByRakNetSession (sessions : List MinecraftSession) (h : Nat) :
    Option MinecraftSession :=
  sessions.find? (fun t => t.raknetHandle == h)

/-- Modelled from the spec: net.SessionManager.RemoveMinecraftSession is not
under src; per section 4.4 it removes the entry of the session from the
manager, and removal for a handle with no bound session (the lookup in
HandleDisconnect failed, so there is no session value to remove) is a benign
no-op, not an error. The manager keys sessions by name. -/
def removeMinecraftSession (sessions : List MinecraftSession)
    (found : Option MinecraftSession) : List MinecraftSession :=
  match found with
  | none => sessions
  | some sess => sessions.filter (fun t => t.name != sess.name)

/-- Server.BroadcastMessage (part_000 lines 330 to 335): sends the message to
every session and logs it to the chat log. -/
def Server.BroadcastMessage (s : Server) (msg : String) : Server :=
  { s with events := s.events
      ++ s.sessions.map (fun t => ServerEvent.messageTo t.name msg)
      ++ [ServerEvent.chatLogged msg] }

/-- Server.HandleDisconnect (part_000 lines 399 to 420): look up the session
bound to the RakNet handle, remove it from the manager (the removal happens
before the found check, so a failed lookup removes nothing), return early when
no session was bound; otherwise, when the player of the session has a
dimension, send a player list removal to every remaining session (the source
sends each online session its own entry), despawn and close the player, and
broadcast the leave message. The debug log line 401 is outside the modelled
state. -/
def Server.HandleDisconnect (s : Server) (h : Nat) : Server :=
  match getSessionByRakNetSession s.sessions h with
  | none => { s with sessions := removeMinecraftSession s.sessions none }
  | some sess =>
    let s1 := { s with sessions := removeMinecraftSession s.sessions (some sess) }
    if sess.hasDimension then
      let s2 := { s1 with events := s1.events
          ++ s1.sessions.map (fun (o : MinecraftSession) => ServerEvent.playerListRemoveSent o.name o.name)
          ++ [ServerEvent.despawned sess.name, ServerEvent.closed sess.name] }
      s2.BroadcastMessage (sess.displayName ++ " has left the server")
    else s1

/-- Modelled from the spec: the 2-byte magic that the external status
sub-protocol (github.com/irmine/query, query.Header) recognises on raw
datagrams, section 6 of the spec. The concrete bytes are immaterial to C10. -/
def queryHeader : List Nat := [0xFE, 0xFD]

/-- Outcome of Server.HandleRaw on one raw datagram. -/
inductive RawOutcome
  | sliceOutOfBounds
  | queryHandled
  | queryIgnored
  | unhandledLogged
deriving DecidableEq, Repr

/-- Server.HandleRaw (part_000 lines 383 to 397). The source evaluates
packet[0:2] with no length check; a datagram of fewer than 2 bytes makes that
slice expression panic (slice bounds out of range), modelled as the
sliceOutOfBounds outcome. A received datagram is modelled as the list of its
bytes, so its capacity equals its length. Otherwise: on the query magic, the
query is handled only when the configuration allows it; any other packet is
logged as unhandled. -/
def Server.HandleRaw (s : Server) (packet : List Nat) : RawOutcome :=
  if packet.length < 2 then RawOutcome.sliceOutOfBounds
  else if packet.take 2 = queryHeader then
    if s.config.allowQuery then RawOutcome.queryHandled else RawOutcome.queryIgnored
  else RawOutcome.unhandledLogged

/-! ## The AddEntityPacket codec (protocol 200, src/unnamed part_000 lines 10 to 48) -/

/-- An r3.Vector value (x, y, z), a value type. The numeric carrier is Rat; the
claims about this codec only store and recover values. -/
structure Vec3 where
  x : Rat
  y : Rat
  z : Rat
deriving DecidableEq, Repr

/-- A data.Rotation value: yaw, pitch and an optional head yaw, the last only
on the wire when the boolean argument of PutRotation and GetRotation says so. -/
structure Rotation where
  yaw : Rat
  pitch : Rat
  headYaw : Rat
deriving DecidableEq, Repr

/-- One attribute of the AttributeMap: the (min, max, current, default) tuple
of section 3 of the spec. -/
structure Attribute where
  minValue : Rat
  maxValue : Rat
  value : Rat
  defaultValue : Rat
deriving DecidableEq, Repr

/-- One tagged value of the EntityDataMap, section 3 of the spec: a tagged
union over a fixed small set of primitive types. -/
inductive EntityDataEntry
  | byteVal (v : Int)
  | intVal (v : Int)
  | floatVal (v : Rat)
  | stringVal (v : String)
deriving DecidableEq, Repr

/-- Sort a keyed entry list by its keys (insertion sort, stable). -/
def sortByKey {α β : Type} [LinearOrder α] (l : List (α × β)) : List (α × β) :=
  List.insertionSort (fun a b => a.1 ≤ b.1) l

/-- The AddEntityPacket fields (part_000 lines 10 to 21). UniqueId is an int64,
RuntimeId a uint64, EntityType a uint32; the two maps are carried as entry
lists, the Lean image of a Go map value being its canonical key-sorted entry
list, since a Go map value carries no entry order of its own. -/
structure AddEntityPacket where
  uniqueId : Int
  runtimeId : Nat
  entityType : Nat
  position : Vec3
  motion : Vec3
  rotation : Rotation
  attributes : List (String × Attribute)
  entityData : List (Nat × List EntityDataEntry)
deriving DecidableEq, Repr

/-- One unit of Binary Cursor content. Modelled from the spec: the cursor
primitives (protocol.MinecraftStream) are not under src; per section 4.1 each
write appends the canonical encoding of its value and the matching read
consumes exactly those bytes and returns the originally written value, so the
stream is modelled at the granularity of one token per primitive write. -/
inductive Token
  | uniqueId (v : Int)
  | runtimeId (v : Nat)
  | uVarInt (v : Nat)
  | vec (v : Vec3)
  | rot (r : Rotation) (withHeadYaw : Bool)
  | attrMap (entries : List (String × Attribute))
  | entData (entries : List (Nat × List EntityDataEntry))
deriving DecidableEq, Repr

/-- Modelled from the spec: PutUniqueId appends the canonical encoding of an
int64 unique id, section 4.1. -/
def putUniqueId (ts : List Token) (v : Int) : List Token := ts ++ [Token.uniqueId v]

/-- Modelled from the spec: PutRuntimeId appends a uint64 runtime id. -/
def putRuntimeId (ts : List Token) (v : Nat) : List Token := ts ++ [Token.runtimeId v]

/-- Modelled from the spec: PutUnsignedVarInt appends a uint32 in the
continuation-bit variable-length encoding, section 4.1. -/
def putUnsignedVarInt (ts : List Token) (v : Nat) : List Token := ts ++ [Token.uVarInt v]

/-- Modelled from the spec: PutVector appends three floating point fields in
x, y, z order, section 4.1. -/
def putVector (ts : List Token) (v : Vec3) : List Token := ts ++ [Token.vec v]

/-- Modelled from the spec: PutRotation appends yaw and pitch, and the head
yaw exactly when the boolean says so, section 4.3. -/
def putRotation (ts : List Token) (r : Rotation) (withHeadYaw : Bool) : List Token :=
  ts ++ [Token.rot r withHeadYaw]

/-- Modelled from the spec: PutAttributeMap appends the attribute entries with
keys written in a fixed, reproducible order, section 4.3; the fixed order is
increasing key order. -/
def putAttributeMap (ts : List Token) (m : List (String × Attribute)) : List Token :=
  ts ++ [Token.attrMap (sortByKey m)]

/-- Modelled from the spec: PutEntityData appends the entity data entries with
keys written in a fixed, reproducible order, section 4.3; the fixed order is
increasing key order. -/
def putEntityData (ts : List Token) (m : List (Nat × List EntityDataEntry)) : List Token :=
  ts ++ [Token.entData (sortByKey m)]

/-- Modelled from the spec: GetUniqueId consumes exactly what PutUniqueId
produced and returns the written value; anything else is a decode failure. -/
def getUniqueId : List Token → Option (Int × List Token)
  | Token.uniqueId v :: rest => some (v, rest)
  | _ => none

/-- Modelled from the spec: GetRuntimeId, the read matching PutRuntimeId. -/
def getRuntimeId : List Token → Option (Nat × List Token)
  | Token.runtimeId v :: rest => some (v, rest)
  | _ => none

/-- Modelled from the spec: GetUnsignedVarInt, the read matching
PutUnsignedVarInt. -/
def getUnsignedVarInt : List Token → Option (Nat × List Token)
  | Token.uVarInt v :: rest => some (v, rest)
  | _ => none

/-- Modelled from the spec: GetVector, the read matching PutVector. -/
def getVector : List Token → Option (Vec3 × List Token)
  | Token.vec v :: rest => some (v, rest)
  | _ => none

/-- Modelled from the spec: GetRotation, the read matching PutRotation with
the same head yaw flag. -/
def getRotation (ts : List Token) (withHeadYaw : Bool) : Option (Rotation × List Token) :=
  match ts with
  | Token.rot r w :: rest => if w = withHeadYaw then some (r, rest) else none
  | _ => none

/-- Modelled from the spec: GetAttributeMap, the read matching PutAttributeMap. -/
def getAttributeMap : List Token → Option (List (String × Attribute) × List Token)
  | Token.attrMap m :: rest => some (m, rest)
  | _ => none

/-- Modelled from the spec: GetEntityData, the read matching PutEntityData. -/
def getEntityData : List Token → Option (List (Nat × List EntityDataEntry) × List Token)
  | Token.entData m :: rest => some (m, rest)
  | _ => none

/-- AddEntityPacket.Encode (part_000 lines 27 to 37): the writes in source
order, ending with a trailing unsigned var int 0 (line 36). -/
def AddEntityPacket.Encode (pk : AddEntityPacket) : List Token :=
  let ts := putUniqueId [] pk.uniqueId
  let ts := putRuntimeId ts pk.runtimeId
  let ts := putUnsignedVarInt ts pk.entityType
  let ts := putVector ts pk.position
  let ts := putVector ts pk.motion
  let ts := putRotation ts pk.rotation false
  let ts := putAttributeMap ts pk.attributes
  let ts := putEntityData ts pk.entityData
  putUnsignedVarInt ts 0

/-- AddEntityPacket.Decode (part_000 lines 39 to 48): the reads in source
order. There is no read matching the trailing unsigned var int of Encode, so
that token stays unconsumed; the decoded packet and the leftover stream are
returned. -/
def AddEntityPacket.Decode (ts : List Token) : Option (AddEntityPacket × List Token) := do
  let (u, ts) ← getUniqueId ts
  let (r, ts) ← getRuntimeId ts
  let (t, ts) ← getUnsignedVarInt ts
  let (p, ts) ← getVector ts
  let (m, ts) ← getVector ts
  let (rt, ts) ← getRotation ts false
  let (a, ts) ← getAttributeMap ts
  let (e, ts) ← getEntityData ts
  some ({ uniqueId := u, runtimeId := r, entityType := t, position := p,
          motion := m, rotation := rt, attributes := a, entityData := e }, ts)

/-! ## Concrete instances used by the theorems below -/

/-- A configuration with the defaults of the shipped gomine.yml. -/
def defaultConfig : GoMineConfig :=
  { useEncryption := false, allowQuery := true, allowPluginQuery := true,
    debugMode := false, serverMotd := "A GoMine Server", serverName := "GoMine",
    serverIp := "0.0.0.0", serverPort := 19132, maximumPlayers := 20 }

/-- A freshly constructed, not yet started server. Encryption is off in
defaultConfig, so NewServer returns some (baseServer defaultConfig) and the
getD fallback is never taken. -/
def stoppedServer : Server :=
  (NewServer defaultConfig (some 1) true).getD (baseServer defaultConfig)

/-- A freshly started server: NewServer followed by Start. -/
def freshServer : Server := (stoppedServer.Start).1

/-- A dimension with two disjoint chunks, each with a pending mutation: chunk
(0, 0) has interested players A and B, chunk (5, 5) has interested player C. -/
def c1Dim : Dimension :=
  { name := "overworld", dimensionId := 0,
    chunkPlayers := [((0, 0), ["A", "B"]), ((5, 5), ["C"])],
    updatedBlocks := [((0, 0), [{ id := 1, data := 0 }]), ((5, 5), [{ id := 2, data := 0 }])] }

/-- A dimension with one chunk, one interested player and one pending mutation. -/
def c2Dim : Dimension :=
  { name := "overworld", dimensionId := 0,
    chunkPlayers := [((0, 0), ["A"])],
    updatedBlocks := [((0, 0), [{ id := 1, data := 0 }])] }

/-- A dimension with a pending mutation, for the tick claim. -/
def c4Dim : Dimension :=
  { name := "overworld", dimensionId := 0,
    chunkPlayers := [((0, 0), ["A"])],
    updatedBlocks := [((0, 0), [{ id := 9, data := 1 }])] }

/-- A running server whose only dimension holds a pending mutation. -/
def c4Server : Server := { freshServer with dimensions := [c4Dim] }

/-- A running server with two sessions on distinct transport handles. -/
def c5Server : Server :=
  { freshServer with sessions :=
      [{ raknetHandle := 7, name := "Alice", displayName := "Alice", hasDimension := true },
       { raknetHandle := 8, name := "Bob", displayName := "Bob", hasDimension := false }] }

/-- The default configuration with encryption turned on. -/
def encConfig : GoMineConfig := { defaultConfig with useEncryption := true }

/-- A server constructed under encryption whose key generation succeeded but
whose generated key failed the curve validation check. NewServer returns it
wrapped in some (the theorem below states this), so the getD fallback is never
taken. -/
def c6Server : Server :=
  (NewServer encConfig (some 1) false).getD (baseServer encConfig)

/-- A sample attribute tuple. -/
def demoAttr : Attribute := { minValue := 0, maxValue := 20, value := 20, defaultValue := 20 }

/-- A sample AddEntityPacket with an empty attribute map and a two-entry
entity data map in canonical key order. -/
def c8Packet : AddEntityPacket :=
  { uniqueId := -3, runtimeId := 7, entityType := 12,
    position := { x := 1, y := 2, z := 3 },
    motion := { x := 0, y := 0, z := 0 },
    rotation := { yaw := 90, pitch := 45, headYaw := 0 },
    attributes := [],
    entityData := [(0, [EntityDataEntry.intVal 5]), (3, [EntityDataEntry.stringVal "Zombie"])] }

/-- A packet whose maps list their entries in one order. -/
def c9PacketA : AddEntityPacket :=
  { c8Packet with
    attributes := [("minecraft:health", demoAttr), ("minecraft:movement", demoAttr)],
    entityData := [(0, [EntityDataEntry.intVal 5]), (3, [EntityDataEntry.stringVal "Zombie"])] }

/-- The same packet with the entries of both maps listed in the swapped order. -/
def c9PacketB : AddEntityPacket :=
  { c8Packet with
    attributes := [("minecraft:movement", demoAttr), ("minecraft:health", demoAttr)],
    entityData := [(3, [EntityDataEntry.stringVal "Zombie"]), (0, [EntityDataEntry.intVal 5])] }

/-! ## Helper lemmas -/

/-- wrap64 is the identity on integers already in the int64 range. -/
theorem wrap64_eq_self (x : Int) (h0 : 0 ≤ x + int64Bound) (h1 : x + int64Bound < 2 ^ 64) :
    wrap64 x = x := by
  unfold wrap64
  rw [Int.emod_eq_of_lt h0 h1]
  ring

/-- sortByKey sorts the entries by non-decreasing key. -/
theorem sortByKey_sorted_le {α β : Type} [LinearOrder α] (l : List (α × β)) :
    (sortByKey l).Sorted (fun a b => a.1 ≤ b.1) := by
  have : IsTotal (α × β) (fun a b => a.1 ≤ b.1) := ⟨fun a b => le_total a.1 b.1⟩
  have : IsTrans (α × β) (fun a b => a.1 ≤ b.1) := ⟨fun _ _ _ h1 h2 => le_trans h1 h2⟩
  exact List.sorted_insertionSort _ l

/-- sortByKey permutes the entry list. -/
theorem sortByKey_perm {α β : Type} [LinearOrder α] (l : List (α × β)) :
    List.Perm (sortByKey l) l :=
  List.perm_insertionSort _ l

/-- Two entry lists carrying the same entries (a permutation of one another)
with no duplicate key sort to the same canonical list. -/
theorem sortByKey_eq_of_perm {α β : Type} [LinearOrder α]
    (l₁ l₂ : List (α × β)) (hp : List.Perm l₁ l₂)
    (hn : (l₁.map Prod.fst).Nodup) : sortByKey l₁ = sortByKey l₂ := by
  have hAnti : IsAntisymm (α × β) (fun a b => a.1 < b.1) :=
    ⟨fun a b h1 h2 => absurd h2 (lt_asymm h1)⟩
  have hperm : List.Perm (sortByKey l₁) (sortByKey l₂) :=
    (sortByKey_perm l₁).trans (hp.trans (sortByKey_perm l₂).symm)
  have hn₁ : ((sortByKey l₁).map Prod.fst).Nodup := by
    refine (List.Perm.nodup_iff ?_).mpr hn
    exact (sortByKey_perm l₁).map Prod.fst
  have hn₂ : ((sortByKey l₂).map Prod.fst).Nodup := by
    refine (List.Perm.nodup_iff ?_).mpr hn₁
    exact (hperm.map Prod.fst).symm
  have hs₁ : (sortByKey l₁).Sorted (fun a b => a.1 < b.1) := by
    have hle := sortByKey_sorted_le l₁
    have hne : (sortByKey l₁).Pairwise (fun a b => a.1 ≠ b.1) :=
      (List.pairwise_map).mp hn₁
    exact (hle.and hne).imp (fun h => lt_of_le_of_ne h.1 h.2)
  have hs₂ : (sortByKey l₂).Sorted (fun a b => a.1 < b.1) := by
    have hle := sortByKey_sorted_le l₂
    have hne : (sortByKey l₂).Pairwise (fun a b => a.1 ≠ b.1) :=
      (List.pairwise_map).mp hn₂
    exact (hle.and hne).imp (fun h => lt_of_le_of_ne h.1 h.2)
  exact List.eq_of_perm_of_sorted hperm hs₁ hs₂

/-- After the session bound to a handle is removed by name, no session bound to
that handle remains, provided the handles in the manager are pairwise distinct. -/
theorem find?_handle_filter_eq_none (l : List MinecraftSession) (h : Nat)
    (hU : l.Pairwise (fun a b => a.raknetHandle ≠ b.raknetHandle))
    (sess : MinecraftSession)
    (hf : l.find? (fun t => t.raknetHandle == h) = some sess) :
    (l.filter (fun t => t.name != sess.name)).find? (fun t => t.raknetHandle == h) = none := by
  rw [List.find?_eq_none]
  intro x hx hxp
  have hmem := List.mem_filter.mp hx
  have hxl := hmem.1
  have hname : x.name ≠ sess.name := by simpa using hmem.2
  have hsess_mem : sess ∈ l := List.mem_of_find?_eq_some hf
  have hsess_p := List.find?_some hf
  have hxh : x.raknetHandle = h := by simpa using hxp
  have hsh : sess.raknetHandle = h := by simpa using hsess_p
  have hne : x ≠ sess := fun e => hname (by rw [e])
  have hsymm : Symmetric (fun (a b : MinecraftSession) => a.raknetHandle ≠ b.raknetHandle) :=
    fun a b hab => hab.symm
  have hdiff : x.raknetHandle ≠ sess.raknetHandle := hU.forall hsymm hxl hsess_mem hne
  exact hdiff (hxh.trans hsh.symm)

/-- HandleDisconnect for a handle with no bound session leaves the server
unchanged. -/
theorem HandleDisconnect_of_none (s : Server) (h : Nat)
    (hf : getSessionByRakNetSession s.sessions h = none) :
    s.HandleDisconnect h = s := by
  simp [Server.HandleDisconnect, hf, removeMinecraftSession]

/-! ## Claim theorems -/

/-- Claim C1, evaluation of the code at the failing input. The claim states
that every flush delivers each chunk mutation batch to exactly the sessions
interested in that chunk. The code violates it: with two disjoint chunks each
holding one pending mutation, interested sets being A, B for chunk (0, 0) and
C for chunk (5, 5), Dimension.UpdateBlocks sends one batch holding the
mutations of both chunks to C alone, the player list of the last iterated
chunk: C receives the mutation of a chunk it is not interested in, while A and
B, interested in a chunk with a pending mutation, receive nothing. -/
theorem C1_flush_misdelivers :
    c1Dim.UpdateBlocks =
      [("C", [{ blockId := 1, blockMetadata := 0, flags := 0 },
              { blockId := 2, blockMetadata := 0, flags := 0 }])] ∧
    c1Dim.GetChunkPlayers 0 0 = ["A", "B"] ∧
    c1Dim.GetChunkPlayers 5 5 = ["C"] := ⟨rfl, rfl, rfl⟩

/-- Claim C2, evaluation of the code at the failing input. The claim states
that a non-empty pending list is drained exactly once per flush: empty
immediately after, nothing delivered twice. The code violates it:
Dimension.UpdateBlocks never clears updatedBlocks, so after the flush the
pending list of the chunk is exactly what it was (still non-empty), and a
second flush delivers the same batch to the same player again. -/
theorem C2_pending_list_never_cleared :
    c2Dim.updateBlocksPost = c2Dim ∧
    c2Dim.updatedBlocks ≠ [] ∧
    (c2Dim.updateBlocksPost).UpdateBlocks = c2Dim.UpdateBlocks ∧
    c2Dim.UpdateBlocks = [("A", [{ blockId := 1, blockMetadata := 0, flags := 0 }])] := by
  refine ⟨rfl, ?_, rfl, rfl⟩
  decide

set_option maxRecDepth 8000 in
/-- Claim C3, counterexample to the claim as stated. The claim says ticking a
fresh running server 19 times leaves the cached announce data unchanged from
its initial value and the 20th tick updates it. In the code the recompute
guard is tick mod 20 = 0 on the pre-increment counter, which holds already on
the very first tick of a fresh server (counter 0), so the first tick updates
the cached query result; and the 20th tick (counter 19) does not update it. -/
theorem C3_counterexample_first_tick_updates :
    (freshServer.tickN 1).queryResult ≠ freshServer.queryResult ∧
    (freshServer.tickN 20).queryResult = (freshServer.tickN 1).queryResult := by
  refine ⟨?_, rfl⟩
  have h1 : (freshServer.tickN 1).queryResult = some freshServer.GenerateQueryResult := rfl
  have h2 : freshServer.queryResult = none := rfl
  rw [h1, h2]
  simp

/-- Claim C3 as amended: on a running server, one tick recomputes and caches
the announce data (query result and pong data) exactly when the pre-increment
tick counter is a multiple of 20 — so from a fresh server the 1st, 21st, 41st
ticks recompute, and every other tick leaves the cached data unchanged. -/
theorem C3_amended_recompute_on_counter_multiple (s : Server) (hr : s.isRunning = true) :
    (s.tick % 20 = 0 →
      (s.Tick).queryResult = some s.GenerateQueryResult ∧
      (s.Tick).pongData = s.GeneratePongData) ∧
    (s.tick % 20 ≠ 0 →
      (s.Tick).queryResult = s.queryResult ∧ (s.Tick).pongData = s.pongData) := by
  constructor <;> intro h <;> simp [Server.Tick, hr, h]

/-- Claim C3 amended, witness: the freshly started server is running, its tick
counter 0 is a multiple of 20, and its first tick caches the recomputed data. -/
theorem C3_amended_recompute_witness :
    (freshServer.Tick).queryResult = some freshServer.GenerateQueryResult ∧
    (freshServer.Tick).pongData = freshServer.GeneratePongData :=
  (C3_amended_recompute_on_counter_multiple freshServer rfl).1 rfl

/-- Claim C4, evaluation of the code at the failing input. The claim states
that every tick of a running server flushes the pending spatial deltas of
every dimension. The code violates it: Server.Tick iterates the levels with
the level.Tick() call commented out and Dimension.TickDimension has an empty
body, so a tick leaves every pending mutation list untouched and emits no
batch. -/
theorem C4_tick_performs_no_flush :
    c4Server.isRunning = true ∧
    c4Dim.updatedBlocks ≠ [] ∧
    (c4Server.Tick).dimensions = c4Server.dimensions ∧
    c4Dim.TickDimension = c4Dim ∧
    (c4Server.Tick).events = c4Server.events := by
  refine ⟨rfl, ?_, rfl, rfl, rfl⟩
  decide

/-- Claim C5: invoking HandleDisconnect twice for the same transport handle
produces the same final state as invoking it once, and a disconnect for a
handle with no bound session leaves the server unchanged. The uniqueness
hypothesis is the manager invariant of section 4.4 of the spec: at most one
live session per transport handle. -/
theorem C5_disconnect_idempotent (s : Server) (h : Nat)
    (hU : s.sessions.Pairwise (fun a b => a.raknetHandle ≠ b.raknetHandle)) :
    (s.HandleDisconnect h).HandleDisconnect h = s.HandleDisconnect h ∧
    (getSessionByRakNetSession s.sessions h = none → s.HandleDisconnect h = s) := by
  refine ⟨?_, fun hf => HandleDisconnect_of_none s h hf⟩
  cases hf : getSessionByRakNetSession s.sessions h with
  | none =>
    have h1 := HandleDisconnect_of_none s h hf
    rw [h1]
    exact h1
  | some sess =>
    have hsessions : (s.HandleDisconnect h).sessions =
        s.sessions.filter (fun t => t.name != sess.name) := by
      simp only [Server.HandleDisconnect, hf, removeMinecraftSession]
      by_cases hd : sess.hasDimension <;> simp [hd, Server.BroadcastMessage]
    have hnone : getSessionByRakNetSession (s.HandleDisconnect h).sessions h = none := by
      rw [hsessions]
      exact find?_handle_filter_eq_none s.sessions h hU sess hf
    exact HandleDisconnect_of_none (s.HandleDisconnect h) h hnone

/-- Claim C5, witness: on a server with sessions on handles 7 and 8,
disconnecting handle 7 twice equals disconnecting it once, and disconnecting
the unbound handle 99 changes nothing. -/
theorem C5_disconnect_idempotent_witness :
    (c5Server.HandleDisconnect 7).HandleDisconnect 7 = c5Server.HandleDisconnect 7 ∧
    c5Server.HandleDisconnect 99 = c5Server :=
  ⟨(C5_disconnect_idempotent c5Server 7 (by decide)).1,
   (C5_disconnect_idempotent c5Server 99 (by decide)).2 (by decide)⟩

/-- Claim C6, evaluation of the code at the failing input. The claim states
that a key generation or curve validation failure under encryption must be
fatal: the server must not reach the tick loop. The code violates it on the
curve validation failure mode: when ecdsa.GenerateKey succeeds but the curve
check on the generated key fails, NewServer only logs Invalid private key
generated (part_000 line 143), construction succeeds carrying the invalid key,
Start succeeds, and the started server ticks (tick counter reaches 1), so the
server runs without usable keys. For the other failure mode the source is
fatal only by accident: when key generation returns an error the key is nil
and line 142 dereferences it, so NewServer panics (modelled by the final
conjunct: NewServer returns none there). -/
theorem C6_curve_failure_not_fatal :
    NewServer encConfig (some 1) false = some c6Server ∧
    c6Server.events = [ServerEvent.errorLogged "Invalid private key generated"] ∧
    c6Server.privateKey = some 1 ∧
    (c6Server.Start).2 = none ∧
    ((c6Server.Start).1).isRunning = true ∧
    (((c6Server.Start).1).Tick).tick = 1 ∧
    NewServer encConfig none false = none := ⟨rfl, rfl, rfl, rfl, rfl, rfl, rfl⟩

/-- Claim C7: Tick on a non-running server is a no-op (the whole state,
including the tick counter, the cached announce data and the sessions, is
unchanged), and on a running server the tick counter increases by exactly one
(within the int64 range, which every counter reachable from a fresh server
inhabits). -/
theorem C7_tick_frame_effect (s : Server) :
    (s.isRunning = false → s.Tick = s) ∧
    (s.isRunning = true → 0 ≤ s.tick → s.tick + 1 < int64Bound → (s.Tick).tick = s.tick + 1) := by
  constructor
  · intro h
    simp [Server.Tick, h]
  · intro hr h0 hlt
    have hw : wrap64 (s.tick + 1) = s.tick + 1 := by
      apply wrap64_eq_self
      · have : (0 : Int) ≤ int64Bound := by norm_num [int64Bound]
        omega
      · have : int64Bound + int64Bound = 2 ^ 64 := by norm_num [int64Bound]
        omega
    simp [Server.Tick, hr, apply_ite]
    exact hw

/-- Claim C7, witness: the not yet started server is unchanged by Tick, and
the first tick of the freshly started server takes the counter from 0 to 1. -/
theorem C7_tick_frame_effect_witness :
    stoppedServer.Tick = stoppedServer ∧ (freshServer.Tick).tick = freshServer.tick + 1 :=
  ⟨(C7_tick_frame_effect stoppedServer).1 rfl,
   (C7_tick_frame_effect freshServer).2 rfl (by decide) (by decide)⟩

/-- Claim C8: decoding the stream produced by encoding any AddEntityPacket
recovers the packet, for every field value, the maps included. The hypotheses
say the entry lists of the two maps are in canonical key order, which is the
Lean image of a Go map value (a Go map value carries no entry order); every
map content has exactly one such representative. The trailing unsigned var int
0 written by Encode is not read by Decode and stays as the unconsumed rest of
the stream. -/
theorem C8_addEntity_roundtrip (pk : AddEntityPacket)
    (ha : sortByKey pk.attributes = pk.attributes)
    (he : sortByKey pk.entityData = pk.entityData) :
    AddEntityPacket.Decode pk.Encode = some (pk, [Token.uVarInt 0]) := by
  have hEnc : pk.Encode =
      [Token.uniqueId pk.uniqueId, Token.runtimeId pk.runtimeId,
       Token.uVarInt pk.entityType, Token.vec pk.position, Token.vec pk.motion,
       Token.rot pk.rotation false, Token.attrMap (sortByKey pk.attributes),
       Token.entData (sortByKey pk.entityData), Token.uVarInt 0] := by
    simp [AddEntityPacket.Encode, putUniqueId, putRuntimeId, putUnsignedVarInt,
          putVector, putRotation, putAttributeMap, putEntityData]
  rw [hEnc, ha, he]
  rfl

/-- Claim C8, witness: a concrete packet with an empty attribute map and a
two-entry entity data map round-trips. -/
theorem C8_addEntity_roundtrip_witness :
    AddEntityPacket.Decode c8Packet.Encode = some (c8Packet, [Token.uVarInt 0]) :=
  C8_addEntity_roundtrip c8Packet rfl rfl

/-- Claim C9: encoding is deterministic. Two AddEntityPacket instances whose
scalar fields are equal and whose attribute and entity data maps hold the same
entries (entry lists that are permutations of one another, keys unique as the
spec requires of both maps) encode to identical streams: the keys are written
in increasing order, never in the incidental order the entries were handed
over in. -/
theorem C9_addEntity_encode_deterministic (p q : AddEntityPacket)
    (h1 : p.uniqueId = q.uniqueId) (h2 : p.runtimeId = q.runtimeId)
    (h3 : p.entityType = q.entityType) (h4 : p.position = q.position)
    (h5 : p.motion = q.motion) (h6 : p.rotation = q.rotation)
    (ha : List.Perm p.attributes q.attributes)
    (haN : (p.attributes.map Prod.fst).Nodup)
    (he : List.Perm p.entityData q.entityData)
    (heN : (p.entityData.map Prod.fst).Nodup) :
    p.Encode = q.Encode := by
  simp [AddEntityPacket.Encode, putUniqueId, putRuntimeId, putUnsignedVarInt, putVector,
        putRotation, putAttributeMap, putEntityData, h1, h2, h3, h4, h5, h6,
        sortByKey_eq_of_perm _ _ ha haN, sortByKey_eq_of_perm _ _ he heN]

/-- Claim C9, witness: two packets whose attribute and entity data entries are
listed in opposite orders encode to the same stream. -/
theorem C9_addEntity_encode_deterministic_witness : c9PacketA.Encode = c9PacketB.Encode :=
  C9_addEntity_encode_deterministic c9PacketA c9PacketB rfl rfl rfl rfl rfl rfl
    (List.Perm.swap _ _ _) (by decide) (List.Perm.swap _ _ _) (by decide)

/-- Claim C10: the raw packet handler is not total; for every raw datagram
shorter than 2 bytes the 2-byte magic comparison indexes past the end of the
packet (the source performs packet[0:2] without a length check), so the panic
branch of the operation is reached. -/
theorem C10_handleRaw_short_packet_out_of_bounds (s : Server) (packet : List Nat)
    (hlen : packet.length < 2) :
    s.HandleRaw packet = RawOutcome.sliceOutOfBounds := by
  simp [Server.HandleRaw, hlen]

/-- Claim C10, witness: the empty datagram and a one-byte datagram both reach
the out-of-bounds branch on the started server. -/
theorem C10_handleRaw_short_packet_out_of_bounds_witness :
    ([] : List Nat).length < 2 ∧ ([0x42] : List Nat).length < 2 ∧
    freshServer.HandleRaw [] = RawOutcome.sliceOutOfBounds ∧
    freshServer.HandleRaw [0x42] = RawOutcome.sliceOutOfBounds :=
  ⟨by decide, by decide,
   C10_handleRaw_short_packet_out_of_bounds freshServer [] (by decide),
   C10_handleRaw_short_packet_out_of_bounds freshServer [0x42] (by decide)⟩
